import Mathlib

/-!
Shallow embedding of the Flask-Notes service:

  - src/models.py  : the `Note` and `User` data models;
  - src/schemas.py : the `NoteSchema` serializer;
  - src/app.py     : the request handlers (register, login, notes CRUD).

External collaborators are modelled per the specification: the SQL store's
reads are total, its writes go through an atomic commit that either fully
applies the staged change or fails leaving the persistent state untouched
(a commit failure is a `SQLAlchemyError` carrying a detail string, passed
here as an explicit `Option String` oracle), and the password hasher is an
opaque injective tag.

Python-level dynamic failures matter in this program: models.py declares
`Note` with columns (id, title, description, status) and constructor
`__init__(self, title, description, status)`, while app.py constructs
`Note(title=..., content=..., user_id=...)` and reads `note.user_id` and
`note.content`.  The embedding therefore models attribute lookup on mapped
objects and keyword-argument constructor calls explicitly, so that those
mismatches surface as raised `TypeError` / `AttributeError` /
`InvalidRequestError` values, which none of the handlers' `except` clauses
catch (they catch only `ValidationError` and `SQLAlchemyError`).
A handler outcome is `HResult.ok (body, statusCode)` for a normal return,
or `HResult.raised className` for an uncaught exception (which the web
framework then turns into a generic 500, never into the handler's own
response branches).  JSON bodies are parsed maps with optional keys, so
`data['k']` on a missing key raises `KeyError` and `data.get('k', d)`
falls back to the default, exactly as in the handlers.
-/

namespace FlaskNotes

/-- JSON scalar values appearing in serialized note payloads. -/
inductive JVal where
  | str : String → JVal
  | num : Nat → JVal
deriving DecidableEq, Repr

/-- Outcome of running a handler body: a normal return of `α`, or an uncaught
Python exception identified by its class name. -/
inductive HResult (α : Type) where
  | ok : α → HResult α
  | raised : String → HResult α
deriving DecidableEq, Repr

/-- The `Note` model of models.py (lines 9-18): columns `id` (integer primary
key, assigned by the store), `title`, `description`, `status`.  There is no
`content` and no `user_id` column. -/
structure Note where
  id : Nat
  title : String
  description : String
  status : String
deriving DecidableEq, Repr

/-- The mapped column names of `Note` (models.py lines 10-13). -/
def Note.columns : List String :=
  ["id", "title", "description", "status"]

/-- The keyword parameters of `Note.__init__` (models.py line 15):
`def __init__(self, title, description, status)`. -/
def Note.initParams : List String :=
  ["title", "description", "status"]

/-- Python attribute lookup on a mapped `Note` object: only the declared
columns exist, so any other attribute name raises `AttributeError`.  Values
are rendered as strings (`id` via its decimal form) since the handlers only
compare and copy them. -/
def Note.getattr (n : Note) (attr : String) : HResult String :=
  if attr == "id" then .ok (toString n.id)
  else if attr == "title" then .ok n.title
  else if attr == "description" then .ok n.description
  else if attr == "status" then .ok n.status
  else .raised "AttributeError"

/-- A Python keyword call of the `Note` constructor.  The call binds each
supplied keyword to a parameter of `__init__(self, title, description,
status)`; an unexpected keyword, or a missing required parameter, raises
`TypeError`.  On success the store assigns the primary key `newId`. -/
def Note.callKw (args : List (String × String)) (newId : Nat) : HResult Note :=
  if args.all (fun a => Note.initParams.contains a.1) &&
      Note.initParams.all (fun p => (args.lookup p).isSome) then
    match args.lookup "title", args.lookup "description", args.lookup "status" with
    | some t, some d, some s =>
        .ok { id := newId, title := t, description := d, status := s }
    | _, _, _ => .raised "TypeError"
  else
    .raised "TypeError"

/-- The `User` model of models.py (lines 20-29): `id` (integer primary key,
assigned by the store), unique `username`, and `password_hash`. -/
structure User where
  id : Nat
  username : String
  password_hash : String
deriving DecidableEq, Repr

/-- Modelled from the spec: the Credential Verifier's hash function
(werkzeug's `generate_password_hash`, an external collaborator treated as an
opaque one-way hash).  Modelled as an injective tagging so that verification
succeeds exactly on the original plaintext. -/
def generate_password_hash (plaintext : String) : String :=
  "pbkdf2:" ++ plaintext

/-- Modelled from the spec: the Credential Verifier's verify function
(werkzeug's `check_password_hash`): true iff `h` is the stored hash of
`plaintext`. -/
def check_password_hash (h plaintext : String) : Bool :=
  h == generate_password_hash plaintext

/-- `User.__init__(self, username, password)` (models.py lines 27-29): stores
the username and the hash of the password; the store assigns the id. -/
def User.callKw (username password : String) (newId : Nat) : User :=
  { id := newId, username := username,
    password_hash := generate_password_hash password }

/-- The persistent store state: the `users` and `notes` tables plus the
store's primary-key generators. -/
structure Store where
  users : List User
  notes : List Note
  nextUserId : Nat
  nextNoteId : Nat
deriving DecidableEq, Repr

/-- `User.query.filter_by(username=...).first()` (app.py lines 50 and 72):
`username` is a mapped column of `User`, so this is a plain lookup. -/
def User.queryByUsername (st : Store) (username : String) : Option User :=
  st.users.find? (fun u => u.username == username)

/-- `Note.query.get(id)` (app.py lines 135, 148, 173): primary-key lookup. -/
def Note.queryGet (st : Store) (id : Nat) : Option Note :=
  st.notes.find? (fun n => n.id == id)

/-- `Note.query.filter_by(user_id=current_user.id).all()` (app.py line 124):
`filter_by` resolves the keyword against the entity's mapped columns, and
`user_id` is not a column of `Note`, so the query raises
`InvalidRequestError` instead of filtering. -/
def Note.queryFilterByUserId (st : Store) (uid : Nat) : HResult (List Note) :=
  if Note.columns.contains "user_id" then
    .ok (st.notes.filter (fun n => Note.getattr n "user_id" == .ok (toString uid)))
  else
    .raised "InvalidRequestError"

/-- Response bodies produced by the handlers: a `{'message': ...}` object, an
`{'error': ...}` object, a single serialized note, or a list of them. -/
inductive Body where
  | msg : String → Body
  | err : String → Body
  | note : List (String × JVal) → Body
  | notes : List (List (String × JVal)) → Body
deriving DecidableEq, Repr

/-- `NoteSchema` (schemas.py lines 3-7): dumping a note serializes exactly
the declared fields `id`, `title`, `description`, `status`. -/
def noteSchemaDump (n : Note) : List (String × JVal) :=
  [("id", .num n.id), ("title", .str n.title),
   ("description", .str n.description), ("status", .str n.status)]

/-- A parsed JSON body for the note routes: the optional `title` and
`content` keys (the only keys the handlers read). -/
structure NoteBody where
  title? : Option String
  content? : Option String
deriving DecidableEq, Repr

/-- `RegisterResource.post` (app.py lines 42-61), with the JSON body already
holding both required keys as the claims assume.  If a user with the given
username exists, return 400; otherwise stage the new user and commit.  The
`try` block catches `SQLAlchemyError` (a failed commit, `cm = some detail`)
and returns 500; the code does not change the persistent state in that case
because the commit is atomic. -/
def register (st : Store) (username password : String) (cm : Option String) :
    HResult (Body × Nat) × Store :=
  match User.queryByUsername st username with
  | some _ =>
      (.ok (.err ("Имя пользователя уже занято: " ++ username), 400), st)
  | none =>
      let user := User.callKw username password st.nextUserId
      match cm with
      | none =>
          (.ok (.msg "Пользователь успешно зарегистрирован!", 201),
           { st with users := st.users ++ [user],
                     nextUserId := st.nextUserId + 1 })
      | some e =>
          (.ok (.err ("Ошибка при регистрации пользователя! " ++ e), 500), st)

/-- `LoginResource.post` (app.py lines 66-84), with the JSON body already
holding both keys.  Failure to find the user and failure to verify the
password take the same branch and produce the same 401 body.  The lookup is
a total read in this store model, so the `except SQLAlchemyError` branch
(lines 82-84) is not reachable here. -/
def login (st : Store) (username password : String) : HResult (Body × Nat) :=
  match User.queryByUsername st username with
  | none => .ok (.err "Неправильное имя пользователя или пароль!", 401)
  | some user =>
      if !check_password_hash user.password_hash password then
        .ok (.err "Неправильное имя пользователя или пароль!", 401)
      else
        .ok (.msg "Вход в систему выполнен успешно!", 200)

/-- `NotesResource.post` (app.py lines 103-120), for an authenticated user
`uid`.  `data['title']` and `data['content']` raise `KeyError` when missing.
The constructor call `Note(title=title, content=content,
user_id=current_user.id)` is a keyword call of `Note.__init__`; its outcome
comes from `Note.callKw`.  The `except` clauses catch only
`ValidationError` (400) and `SQLAlchemyError` (500, from a failed commit);
`KeyError` and `TypeError` match neither and propagate. -/
def notesPost (st : Store) (uid : Nat) (body : NoteBody) (cm : Option String) :
    HResult (Body × Nat) × Store :=
  match body.title? with
  | none => (.raised "KeyError", st)
  | some title =>
    match body.content? with
    | none => (.raised "KeyError", st)
    | some content =>
      match Note.callKw
          [("title", title), ("content", content), ("user_id", toString uid)]
          st.nextNoteId with
      | .raised e =>
          if e == "ValidationError" then
            (.ok (.err ("Ошибка при создании заметки! " ++ e), 400), st)
          else if e == "SQLAlchemyError" then
            (.ok (.err ("Ошибка при создании заметки! " ++ e), 500), st)
          else
            (.raised e, st)
      | .ok note =>
          match cm with
          | none =>
              (.ok (.msg "Заметка успешно создана!", 201),
               { st with notes := st.notes ++ [note],
                         nextNoteId := st.nextNoteId + 1 })
          | some e =>
              (.ok (.err ("Ошибка при создании заметки! " ++ e), 500), st)

/-- `NotesResource.get` (app.py lines 122-128), for an authenticated user
`uid`: run the owner query and dump the result.  The handler has no `try`
block, so a raised query error propagates. -/
def notesGet (st : Store) (uid : Nat) : HResult (Body × Nat) :=
  match Note.queryFilterByUserId st uid with
  | .raised e => .raised e
  | .ok ns => .ok (.notes (ns.map noteSchemaDump), 200)

/-- `NoteResource.get` (app.py lines 133-144): fetch by id; `if not note or
note.user_id != current_user.id` short-circuits, so a missing note yields
404 without touching `user_id`, while an existing note evaluates
`note.user_id`, whose outcome comes from `Note.getattr`. -/
def noteGet (st : Store) (uid : Nat) (id : Nat) : HResult (Body × Nat) :=
  match Note.queryGet st id with
  | none => .ok (.err "Заметка не найдена!", 404)
  | some note =>
    match Note.getattr note "user_id" with
    | .raised e => .raised e
    | .ok owner =>
        if owner != toString uid then
          .ok (.err "Заметка не найдена!", 404)
        else
          .ok (.note (noteSchemaDump note), 200)

/-- `NoteResource.put` (app.py lines 146-169): the same guard as `get`; then
`data.get('title', note.title)` and `data.get('content', note.content)` (the
default argument `note.content` is evaluated eagerly and goes through
`Note.getattr`); then the staged assignments `note.title = ...`,
`note.content = ...` followed by a commit inside `try`.  Only mapped columns
are persisted by the commit, and `content` is not a column of `Note`; a
failed commit is caught as `SQLAlchemyError`, rolled back, and answered
with 500. -/
def notePut (st : Store) (uid : Nat) (id : Nat) (body : NoteBody)
    (cm : Option String) : HResult (Body × Nat) × Store :=
  match Note.queryGet st id with
  | none => (.ok (.err "Заметка не найдена!", 404), st)
  | some note =>
    match Note.getattr note "user_id" with
    | .raised e => (.raised e, st)
    | .ok owner =>
      if owner != toString uid then
        (.ok (.err "Заметка не найдена!", 404), st)
      else
        let title := body.title?.getD note.title
        match Note.getattr note "content" with
        | .raised e => (.raised e, st)
        | .ok oldContent =>
          let _content := body.content?.getD oldContent
          match cm with
          | none =>
              (.ok (.msg "Заметка успешно обновлена!", 200),
               { st with notes := st.notes.map (fun m =>
                   if m.id == id then { m with title := title } else m) })
          | some e =>
              (.ok (.err ("Ошибка при обновлении заметки! " ++ e), 500), st)

/-- `NoteResource.delete` (app.py lines 171-188): the same guard as `get`;
then `db.session.delete(note)` staged and committed inside `try`; a failed
commit is caught as `SQLAlchemyError`, rolled back, and answered with
500. -/
def noteDelete (st : Store) (uid : Nat) (id : Nat) (cm : Option String) :
    HResult (Body × Nat) × Store :=
  match Note.queryGet st id with
  | none => (.ok (.err "Заметка не найдена!", 404), st)
  | some note =>
    match Note.getattr note "user_id" with
    | .raised e => (.raised e, st)
    | .ok owner =>
      if owner != toString uid then
        (.ok (.err "Заметка не найдена!", 404), st)
      else
        match cm with
        | none =>
            (.ok (.msg "Заметка успешно удалена!", 200),
             { st with notes := st.notes.filter (fun n => !(n.id == id)) })
        | some e =>
            (.ok (.err ("Ошибка при удалении заметки! " ++ e), 500), st)

/-- A handler outcome is a success iff it returned normally with a 2xx
status (the handlers only ever use 200 and 201). -/
def HResult.isSuccess : HResult (Body × Nat) → Bool
  | .ok (_, s) => s == 200 || s == 201
  | .raised _ => false

/-- True when a login with these credentials takes the failure branch of
`LoginResource.post`: the username is unknown, or the stored hash does not
verify against the supplied password. -/
def loginFailsb (st : Store) (username password : String) : Bool :=
  match User.queryByUsername st username with
  | none => true
  | some user => !check_password_hash user.password_hash password

/-- Concrete user "alice" (id 1). -/
def alice : User := User.callKw "alice" "p1" 1

/-- Concrete user "bob" (id 2). -/
def bob : User := User.callKw "bob" "p2" 2

/-- A concrete note row with id 1, as the `notes` table stores it
(columns id, title, description, status). -/
def noteOne : Note := { id := 1, title := "t", description := "d", status := "open" }

/-- The empty initial store. -/
def st0 : Store := { users := [], notes := [], nextUserId := 1, nextNoteId := 1 }

/-- A concrete store with users alice and bob and one note row. -/
def st1 : Store := { users := [alice, bob], notes := [noteOne], nextUserId := 3, nextNoteId := 2 }

/-- Accessing `user_id` on any `Note` object raises `AttributeError`:
models.py declares no such column. -/
theorem Note.getattr_user_id (n : Note) :
    Note.getattr n "user_id" = .raised "AttributeError" := by
  simp [Note.getattr]

/-- Helper for C3: a login run that takes the failure branch returns the one
fixed 401 error response. -/
theorem login_fail_response (st : Store) (u p : String)
    (h : loginFailsb st u p = true) :
    login st u p = .ok (.err "Неправильное имя пользователя или пароль!", 401) := by
  unfold login
  unfold loginFailsb at h
  cases hf : User.queryByUsername st u <;> simp_all

/-- Claim C1: for authenticated user B, GetNote/UpdateNote/DeleteNote on a
note id that does not exist return 404 with an error body and leave the
store unchanged; but on a note id that does exist the guard expression
`note.user_id != current_user.id` raises `AttributeError` (surfaced by the
framework as a 500), because `Note` has no `user_id` column — so the
foreign-owner half of the claim cannot behave as specified. -/
theorem noteOps_existing_note_crash :
    noteGet st1 2 1 = .raised "AttributeError" ∧
    notePut st1 2 1 { title? := some "x", content? := none } none =
      (.raised "AttributeError", st1) ∧
    noteDelete st1 2 1 none = (.raised "AttributeError", st1) ∧
    noteGet st1 2 99 = .ok (.err "Заметка не найдена!", 404) ∧
    notePut st1 2 99 { title? := some "x", content? := none } none =
      (.ok (.err "Заметка не найдена!", 404), st1) ∧
    noteDelete st1 2 99 none = (.ok (.err "Заметка не найдена!", 404), st1) := by
  decide

/-- Claim C2: the CreateNote→ListNotes round trip never happens: for an
authenticated user, CreateNote with both fields present raises `TypeError`
at the `Note(title=..., content=..., user_id=...)` call (the constructor
accepts `(title, description, status)`), leaving the store unchanged and
never returning 201; and ListNotes raises `InvalidRequestError` at
`filter_by(user_id=...)`. -/
theorem create_list_roundtrip_impossible :
    notesPost st1 1 { title? := some "t", content? := some "c" } none =
      (.raised "TypeError", st1) ∧
    notesGet st1 1 = .raised "InvalidRequestError" := by
  decide

/-- Claim C3: every login run in which the username is unknown or the stored
hash does not verify returns the one fixed 401 error response; in
particular any two failing runs produce identical status and body. -/
theorem login_failure_uniform (st st' : Store) (u p v q : String)
    (h : loginFailsb st u p = true) (h' : loginFailsb st' v q = true) :
    login st u p = .ok (.err "Неправильное имя пользователя или пароль!", 401) ∧
    login st u p = login st' v q :=
  ⟨login_fail_response st u p h,
   (login_fail_response st u p h).trans (login_fail_response st' v q h').symm⟩

/-- Witness for C3: in the concrete store `st1`, an unknown username
("carol") and a wrong password for the existing user "alice" both fail, and
the two responses coincide. -/
theorem login_failure_uniform_witness :
    login st1 "carol" "p1" = .ok (.err "Неправильное имя пользователя или пароль!", 401) ∧
    login st1 "carol" "p1" = login st1 "alice" "wrong" :=
  login_failure_uniform st1 st1 "carol" "p1" "alice" "wrong" (by decide) (by decide)

/-- Claim C4: a title-only UpdateNote on an existing note never reaches the
partial-update code: the handler raises `AttributeError` at `note.user_id`
(and `note.content`, used as the fallback default, does not exist either),
so no successful update exists and the store is unchanged. -/
theorem put_title_only_crash :
    notePut st1 1 1 { title? := some "t2", content? := none } none =
      (.raised "AttributeError", st1) := by
  decide

/-- Claim C5: each mutating handler is atomic: whenever the outcome is not a
2xx success — including a commit failure signalled by the store — the
resulting store equals the starting store, and on success the staged change
is fully applied (the new user row appended and findable by username; the
new note row appended; the updated title written through the notes table;
the deleted note row filtered out). -/
theorem mutating_ops_atomic (st : Store) (u p : String) (uid nid : Nat)
    (body : NoteBody) (cm : Option String) :
    ((register st u p cm).1.isSuccess = false → (register st u p cm).2 = st) ∧
    ((register st u p cm).1.isSuccess = true →
      (register st u p cm).2.users = st.users ++ [User.callKw u p st.nextUserId] ∧
      User.queryByUsername (register st u p cm).2 u = some (User.callKw u p st.nextUserId)) ∧
    ((notesPost st uid body cm).1.isSuccess = false → (notesPost st uid body cm).2 = st) ∧
    ((notesPost st uid body cm).1.isSuccess = true →
      ∃ n, (notesPost st uid body cm).2.notes = st.notes ++ [n]) ∧
    ((notePut st uid nid body cm).1.isSuccess = false →
      (notePut st uid nid body cm).2 = st) ∧
    ((notePut st uid nid body cm).1.isSuccess = true →
      ∃ t, (notePut st uid nid body cm).2.notes = st.notes.map (fun m =>
        if m.id == nid then { m with title := t } else m)) ∧
    ((noteDelete st uid nid cm).1.isSuccess = false →
      (noteDelete st uid nid cm).2 = st) ∧
    ((noteDelete st uid nid cm).1.isSuccess = true →
      (noteDelete st uid nid cm).2.notes = st.notes.filter (fun n => !(n.id == nid))) := by
  refine ⟨?_, ?_, ?_, ?_, ?_, ?_, ?_, ?_⟩
  · unfold register
    cases User.queryByUsername st u <;> cases cm <;> simp [HResult.isSuccess]
  · unfold register
    cases hq : User.queryByUsername st u with
    | some user => simp [HResult.isSuccess]
    | none =>
        cases cm with
        | some e => simp [HResult.isSuccess]
        | none =>
            intro
            refine ⟨rfl, ?_⟩
            unfold User.queryByUsername at hq ⊢
            simp [hq, User.callKw]
  · unfold notesPost
    cases body.title? <;> cases body.content? <;>
      simp [HResult.isSuccess, Note.callKw, Note.initParams]
  · unfold notesPost
    cases body.title? <;> cases body.content? <;>
      simp [HResult.isSuccess, Note.callKw, Note.initParams]
  · unfold notePut
    cases Note.queryGet st nid with
    | none => simp [HResult.isSuccess]
    | some note => simp [Note.getattr_user_id, HResult.isSuccess]
  · unfold notePut
    cases Note.queryGet st nid with
    | none => simp [HResult.isSuccess]
    | some note => simp [Note.getattr_user_id, HResult.isSuccess]
  · unfold noteDelete
    cases Note.queryGet st nid with
    | none => simp [HResult.isSuccess]
    | some note => simp [Note.getattr_user_id, HResult.isSuccess]
  · unfold noteDelete
    cases Note.queryGet st nid with
    | none => simp [HResult.isSuccess]
    | some note => simp [Note.getattr_user_id, HResult.isSuccess]

/-- Witness for C5: concrete instances of the atomicity clauses — a failed
register commit leaves the empty store unchanged, and a successful register
makes the new user findable. -/
theorem mutating_ops_atomic_witness :
    (register st0 "alice" "p1" (some "boom")).2 = st0 ∧
    User.queryByUsername (register st0 "alice" "p1" none).2 "alice" =
      some (User.callKw "alice" "p1" st0.nextUserId) :=
  ⟨(mutating_ops_atomic st0 "alice" "p1" 1 1 { title? := none, content? := none }
      (some "boom")).1 (by decide),
   ((mutating_ops_atomic st0 "alice" "p1" 1 1 { title? := none, content? := none }
      none).2.1 (by decide)).2⟩

/-- Claim C6: registering a username not present in the store returns 201
and appends exactly that user; registering the same username again returns
400 (whatever the commit oracle would do) and leaves the store unchanged. -/
theorem register_unique_username (st : Store) (u p p2 : String) (c : Option String)
    (hfresh : User.queryByUsername st u = none) :
    (register st u p none).1 = .ok (.msg "Пользователь успешно зарегистрирован!", 201) ∧
    (register st u p none).2.users = st.users ++ [User.callKw u p st.nextUserId] ∧
    (register (register st u p none).2 u p2 c).1 =
      .ok (.err ("Имя пользователя уже занято: " ++ u), 400) ∧
    (register (register st u p none).2 u p2 c).2 = (register st u p none).2 := by
  have hfind : User.queryByUsername
      { st with users := st.users ++ [User.callKw u p st.nextUserId],
                nextUserId := st.nextUserId + 1 } u =
      some (User.callKw u p st.nextUserId) := by
    unfold User.queryByUsername at hfresh ⊢
    simp [List.find?_append, hfresh, User.callKw]
  unfold register
  rw [hfresh]
  simp only
  rw [hfind]
  simp

/-- Witness for C6: registering "alice" in the empty store succeeds with
201, and a second registration of "alice" answers 400. -/
theorem register_unique_username_witness :
    (register st0 "alice" "p1" none).1 =
      .ok (.msg "Пользователь успешно зарегистрирован!", 201) ∧
    (register (register st0 "alice" "p1" none).2 "alice" "p2" none).1 =
      .ok (.err ("Имя пользователя уже занято: " ++ "alice"), 400) := by
  have h := register_unique_username st0 "alice" "p1" "p2" none (by decide)
  exact ⟨h.1, h.2.2.1⟩

/-- Claim C7: UpdateNote's specified idempotence law is about successful
updates of an owned note, but no such run exists: on any existing note the
handler raises `AttributeError` at `note.user_id` and leaves the store
unchanged (so repeating the request trivially reproduces the same crash and
the same state, never a successful update). -/
theorem put_idempotence_unrealizable :
    notePut st1 1 1 { title? := some "a", content? := some "b" } none =
      (.raised "AttributeError", st1) ∧
    notePut (notePut st1 1 1 { title? := some "a", content? := some "b" } none).2
        1 1 { title? := some "a", content? := some "b" } none =
      notePut st1 1 1 { title? := some "a", content? := some "b" } none := by
  decide

/-- Claim C8: an authenticated CreateNote whose body lacks `title` or
`content` raises `KeyError` at the subscript `data['title']` /
`data['content']`; the handler's `except ValidationError` branch never runs
(no marshmallow load happens in this handler), so the response is the
framework's generic 500, not the claimed 400 — though indeed no note is
created. -/
theorem create_missing_field_keyerror :
    notesPost st1 1 { title? := some "t", content? := none } none =
      (.raised "KeyError", st1) ∧
    notesPost st1 1 { title? := none, content? := some "c" } none =
      (.raised "KeyError", st1) := by
  decide

/-- Claim C9: the serializer used by GetNote and ListNotes dumps exactly the
fields `id`, `title`, `description`, `status` for every note, and no field
named `content` appears. -/
theorem note_payload_fields (n : Note) :
    (noteSchemaDump n).map Prod.fst = ["id", "title", "description", "status"] ∧
    ¬ ("content" ∈ (noteSchemaDump n).map Prod.fst) := by
  refine ⟨rfl, ?_⟩
  have hm : (noteSchemaDump n).map Prod.fst =
      ["id", "title", "description", "status"] := rfl
  rw [hm]
  decide

/-- Claim C10: the constructor call `Note(title=..., content=...,
user_id=...)` made by CreateNote is not a valid call of `Note.__init__`
(whose parameters are `title`, `description`, `status`): it raises
`TypeError`, so note creation never completes. -/
theorem note_constructor_call_invalid :
    Note.callKw [("title", "t"), ("content", "c"), ("user_id", "1")] 1 =
      .raised "TypeError" := by
  decide

end FlaskNotes
